import Mathlib

/-!
Verification of the conversation-state machine of the AI medical triage app
(src/app.py). The app keeps a per-session mutable state (image, triage
questions, answer history, question index, final analysis) and advances it one
Streamlit script run per user interaction. We embed:

* the two model-gateway wrappers (get_gemini_json_response,
  get_gemini_text_response) as total functions over an abstract model reply,
  since the remote model either returns text or raises an exception;
* the final-analysis prompt builder (create_final_analysis_prompt);
* a single Streamlit script run (runScript), covering the image-store block,
  the start-triage button handler (with the result of json.loads on the
  gateway reply passed in as an abstract parse outcome), the question render
  plus answer-button handler, and the automatic final-analysis branch;
* a user-visible interaction step (userStep), which is one script run followed
  by the runs that st.rerun() triggers until the state is quiescent;
* reachability of session states from the initial state, and the state
  invariants of the specification.

Conventions of the embedding:

* Parsed JSON values are modelled by JVal; json.loads is the Python standard
  library, so the start-triage event carries its outcome directly (none for a
  json.JSONDecodeError, some v for a successfully parsed value).
* Python exceptions that escape the script run are recorded in the run result
  (field uncaught) together with the unchanged session state; every such path
  in the source raises before mutating any session field.
* History entries are (question_text, option) string pairs, following the
  QuestionSpec data model (question_text a JSON string, options JSON strings)
  that the triage prompt demands; a question object whose question_text or
  options payload is not of that shape is modelled as a type error in the
  render, which like all render errors commits no state.
* Images are opaque handles (Nat).
-/

/-- A parsed JSON value, as produced by json.loads. -/
inductive JVal where
  | jnull : JVal
  | jbool (b : Bool) : JVal
  | jnum (n : Int) : JVal
  | jstr (s : String) : JVal
  | jarr (elems : List JVal) : JVal
  | jobj (fields : List (String × JVal)) : JVal

/-- Whether a JSON value is an object (a Python dict after json.loads). -/
def JVal.isObj : JVal → Bool
  | .jobj _ => true
  | _ => false

/-- Python len() on a parsed JSON value: defined for strings, lists and dicts,
a TypeError (none) otherwise. -/
def pyLen : JVal → Option Nat
  | .jstr s => some s.length
  | .jarr l => some l.length
  | .jobj f => some f.length
  | _ => none

/-- Extract a JSON string payload, if the value is a string. -/
def jvalAsString : JVal → Option String
  | .jstr s => some s
  | _ => none

/-- Python "sep".join(parts). -/
def pyJoin (sep : String) : List String → String
  | [] => ""
  | [x] => x
  | x :: y :: xs => x ++ sep ++ pyJoin sep (y :: xs)

/-- The outcome of one outbound call to the generative model: either the reply
text, or an exception with its message. -/
inductive ModelReply where
  | success (text : String) : ModelReply
  | failure (msg : String) : ModelReply

/-- Embedding of get_gemini_json_response: strips code-fence markers from the
reply text; on any exception returns a synthetic JSON error string instead of
raising. -/
def get_gemini_json_response (reply : ModelReply) : String :=
  match reply with
  | .success t => ((t.trim).replace "```json" "").replace "```" ""
  | .failure e => "\x7b\"error\": \"API communication failed: " ++ e ++ "\"\x7d"

/-- Embedding of get_gemini_text_response: returns the raw reply text; on any
exception returns an error string instead of raising. -/
def get_gemini_text_response (reply : ModelReply) : String :=
  match reply with
  | .success t => t
  | .failure e => "Error: API communication failed. " ++ e

/-- The fixed text of the final-analysis prompt before the interpolated
transcript (the f-string of create_final_analysis_prompt up to history_str). -/
def analysisHead : String :=
  "\n    You are an expert medical analyst AI. You will be provided with a medical image and a triage conversation transcript.\n    Your task is to provide a comprehensive, safe, and transparent final analysis based on BOTH the image and the conversation.\n\n    **Triage Conversation Transcript:**\n    "

/-- The fixed text of the final-analysis prompt after the interpolated
transcript (the f-string of create_final_analysis_prompt from history_str on). -/
def analysisTail : String :=
  "\n\n    **Analysis Task:**\n    Provide a detailed analysis formatted with Markdown, including these exact sections:\n    \n    1.  **Integrated Observation:** A brief summary combining visual findings with user-provided symptoms.\n    \n    2.  **Key Visual Characteristics:** A bulleted list of objective visual details.\n\n    3.  **Potential Interpretation (Multi-Paragraph Format):**\n        - In this section, discuss the most likely interpretations in **separate paragraphs**.\n        - **First Paragraph:** Begin with the most likely possibility. State your confidence level (e.g., \"Confidence: High\") and then, in a narrative style, explain the supporting visual and user evidence for this conclusion.\n        - **Subsequent Paragraph(s):** In a new paragraph, discuss a less likely possibility. State its confidence (e.g., \"Confidence: Low\") and explain why it is less likely, referencing the available evidence.\n        - Discuss no more than three possibilities in total.\n\n    4.  **Crucial Next Steps & Safety Information:**\n    \n    5.  **MANDATORY DISCLAIMER:**\n\n    Structure your response exactly as requested, with separate paragraphs for each interpretation.\n    "

/-- Embedding of create_final_analysis_prompt: interpolates the conversation
history as Q:/A: lines into the fixed analysis template. -/
def create_final_analysis_prompt (conversation_history : List (String × String)) : String :=
  analysisHead
    ++ pyJoin "\n" (conversation_history.map (fun p => "Q: " ++ p.1 ++ "\nA: " ++ p.2))
    ++ analysisTail

/-- The per-session mutable state kept in st.session_state. -/
structure SessionState where
  conversation_started : Bool
  triage_questions : JVal
  current_question_index : Nat
  conversation_history : List (String × String)
  final_analysis : Option String
  image : Option Nat

/-- The session state created by the initialization block (lines 92-103). -/
def initState : SessionState :=
  { conversation_started := false
    triage_questions := .jarr []
    current_question_index := 0
    conversation_history := []
    final_analysis := none
    image := none }

/-- The user interaction carried by one script run: no widget event, a press of
the start-triage button (with the outcome of json.loads on the gateway reply),
or a press of one answer-option button (with the option label). -/
inductive Click where
  | noClick : Click
  | startTriage (parsed : Option JVal) : Click
  | answer (opt : String) : Click

/-- The outcome of one Streamlit script run: the session state it leaves
behind, whether st.rerun() was requested, whether the inline st.error message
was shown, how many narrative-gateway calls it made and with what prompt, and
the name of an uncaught exception if the run aborted. -/
structure RunResult where
  state : SessionState
  rerun : Bool
  errorShown : Bool
  narrCalls : Nat
  narrPrompt : Option String
  uncaught : Option String

/-- A run that finishes without widget effects or mutation. -/
def noopResult (s : SessionState) : RunResult :=
  ⟨s, false, false, 0, none, none⟩

/-- A run aborted by an uncaught exception; no session field was mutated on any
such path in the source. -/
def exnResult (s : SessionState) (e : String) : RunResult :=
  ⟨s, false, false, 0, none, some e⟩

/-- Embedding of the image-store block (lines 116-119): the uploaded image is
stored only when no image is stored yet. -/
def storeImage (s : SessionState) (img : Nat) : SessionState :=
  if s.image = none then { s with image := some img } else s

/-- Embedding of the start-triage button handler body (lines 124-135), given
the outcome of json.loads on the structured-gateway reply. A parse failure is
caught and shows the inline error; a parsed dict commits the four fields and
reruns; any other parsed value raises AttributeError from data.get, which the
except clause (json.JSONDecodeError, KeyError) does not catch. -/
def startTriageHandler (s : SessionState) (parsed : Option JVal) : RunResult :=
  match parsed with
  | none => ⟨s, false, true, 0, none, none⟩
  | some (.jobj fields) =>
      ⟨{ s with
          triage_questions := (List.lookup "questions" fields).getD (.jarr [])
          conversation_started := true
          current_question_index := 0
          conversation_history := [] },
        true, false, 0, none, none⟩
  | some _ => ⟨s, false, false, 0, none, some "AttributeError"⟩

/-- Embedding of the final-analysis branch (lines 157-163): clears
conversation_started, builds the analysis prompt from the full history, makes
the one narrative-gateway call, stores its result and reruns. -/
def analysisBranch (s : SessionState) (narr : ModelReply) : RunResult :=
  ⟨{ s with
      conversation_started := false
      final_analysis := some (get_gemini_text_response narr) },
    true, false, 1, some (create_final_analysis_prompt s.conversation_history), none⟩

/-- Whether the clicked label is one of the rendered option buttons of the
current question. -/
def optionClicked (q_options : List JVal) (opt : String) : Bool :=
  (q_options.filterMap jvalAsString).contains opt

/-- Embedding of the question render and answer-button handler
(lines 144-156). A click on an option of the current question appends
(question_text, option) to the history, advances the index and reruns; every
other path commits nothing (missing keys or non-conforming payload shapes
raise before any mutation). -/
def questionRender (s : SessionState) (click : Click) : RunResult :=
  match s.triage_questions with
  | .jarr qs =>
      match qs[s.current_question_index]? with
      | some (.jobj f) =>
          match List.lookup "question_text" f with
          | none => exnResult s "KeyError"
          | some qTextVal =>
              match List.lookup "options" f with
              | none => exnResult s "KeyError"
              | some optsVal =>
                  match qTextVal with
                  | .jstr q_text =>
                      match optsVal with
                      | .jarr q_options =>
                          match click with
                          | .answer opt =>
                              if optionClicked q_options opt then
                                ⟨{ s with
                                    conversation_history :=
                                      s.conversation_history ++ [(q_text, opt)]
                                    current_question_index :=
                                      s.current_question_index + 1 },
                                  true, false, 0, none, none⟩
                              else noopResult s
                          | _ => noopResult s
                      | _ => exnResult s "TypeError"
                  | _ => exnResult s "TypeError"
      | some _ => exnResult s "TypeError"
      | none => exnResult s "IndexError"
  | .jstr _ => exnResult s "TypeError"
  | .jobj _ => exnResult s "KeyError"
  | _ => exnResult s "TypeError"

/-- Embedding of the conversation block (lines 137-163): when the conversation
has started, either render the current question (index below the question
count) or fire the final-analysis branch; len() on an unsized
triage_questions value raises. -/
def conversationSection (s : SessionState) (click : Click) (narr : ModelReply) : RunResult :=
  if s.conversation_started then
    match pyLen s.triage_questions with
    | none => exnResult s "TypeError"
    | some n =>
        if s.current_question_index < n then questionRender s click
        else analysisBranch s narr
  else noopResult s

/-- One full Streamlit script run over the col1 body (lines 112-163): with no
uploaded file nothing under the uploader runs; otherwise the image-store block
runs, then the start-triage button (shown only when the conversation has not
started and no final analysis exists) or the conversation block. -/
def runScript (s0 : SessionState) (uploaded : Option Nat) (click : Click)
    (narr : ModelReply) : RunResult :=
  match uploaded with
  | none => noopResult s0
  | some img =>
      if (storeImage s0 img).conversation_started = false
          ∧ (storeImage s0 img).final_analysis = none then
        match click with
        | .startTriage parsed => startTriageHandler (storeImage s0 img) parsed
        | _ => conversationSection (storeImage s0 img) click narr
      else conversationSection (storeImage s0 img) click narr

/-- The state and total narrative-call count of one user-visible interaction:
the script run triggered by the interaction, followed by the reruns that
st.rerun() causes (at most two are ever requested) with no further widget
event. -/
def userStepR (s : SessionState) (uploaded : Option Nat) (click : Click)
    (narr : ModelReply) : SessionState × Nat :=
  let r1 := runScript s uploaded click narr
  if r1.rerun then
    let r2 := runScript r1.state uploaded Click.noClick narr
    if r2.rerun then
      let r3 := runScript r2.state uploaded Click.noClick narr
      (r3.state, r1.narrCalls + r2.narrCalls + r3.narrCalls)
    else (r2.state, r1.narrCalls + r2.narrCalls)
  else (r1.state, r1.narrCalls)

/-- The session state after one user-visible interaction. -/
def userStep (s : SessionState) (uploaded : Option Nat) (click : Click)
    (narr : ModelReply) : SessionState :=
  (userStepR s uploaded click narr).1

/-- Session states reachable from the initial state by user interactions. -/
inductive Reachable : SessionState → Prop where
  | init : Reachable initState
  | step (s : SessionState) (hs : Reachable s) (uploaded : Option Nat)
      (click : Click) (narr : ModelReply) :
      Reachable (userStep s uploaded click narr)

/-- The conversation phases of the specification's state machine, read off a
session state (stuck marks a session whose stored question payload has no
length, where every later run raises). -/
inductive Phase where
  | idle : Phase
  | awaitingTriageStart : Phase
  | askingQuestion (i : Nat) : Phase
  | analysisPending : Phase
  | complete : Phase
  | stuck : Phase
deriving DecidableEq

/-- The phase a session state is in. -/
def phaseOf (s : SessionState) : Phase :=
  if s.final_analysis.isSome then .complete
  else if s.image.isNone then .idle
  else if s.conversation_started = false then .awaitingTriageStart
  else
    match pyLen s.triage_questions with
    | some n =>
        if s.current_question_index < n then .askingQuestion s.current_question_index
        else .analysisPending
    | none => .stuck

/-- The state invariants: the history length tracks the question index, the
index never exceeds the question count, a completed session has no running
conversation, and a running conversation always has a current question (so a
quiescent state never re-fires the analysis branch). -/
def SessionInv (s : SessionState) : Prop :=
  s.conversation_history.length = s.current_question_index
  ∧ (∀ n, pyLen s.triage_questions = some n → s.current_question_index ≤ n)
  ∧ (s.final_analysis.isSome → s.conversation_started = false)
  ∧ (s.conversation_started = true →
      ∀ n, pyLen s.triage_questions = some n → s.current_question_index < n)

/-- Explicit spelling of the session state committed by a successful
start-triage parse (lines 129-132), used to state run characterizations. -/
def startCommitState (t : SessionState) (fields : List (String × JVal)) : SessionState :=
  { conversation_started := true
    triage_questions := (List.lookup "questions" fields).getD (.jarr [])
    current_question_index := 0
    conversation_history := []
    final_analysis := t.final_analysis
    image := t.image }

/-- Explicit spelling of the session state committed by an answer-button click
(lines 154-155), used to state run characterizations. -/
def answerCommitState (t : SessionState) (q a : String) : SessionState :=
  { conversation_started := t.conversation_started
    triage_questions := t.triage_questions
    current_question_index := t.current_question_index + 1
    conversation_history := t.conversation_history ++ [(q, a)]
    final_analysis := t.final_analysis
    image := t.image }

/-- Explicit spelling of the session state left by the final-analysis branch
(lines 158-162), used to state run characterizations. -/
def analysisDoneState (t : SessionState) (narr : ModelReply) : SessionState :=
  { conversation_started := false
    triage_questions := t.triage_questions
    current_question_index := t.current_question_index
    conversation_history := t.conversation_history
    final_analysis := some (get_gemini_text_response narr)
    image := t.image }

/-- The interpolated transcript of a conversation history as a list of lines:
one "Q: " line and one "A: " line per (question, answer) pair, in order. -/
def qaLines : List (String × String) → List String
  | [] => []
  | p :: rest => ("Q: " ++ p.1) :: ("A: " ++ p.2) :: qaLines rest

/-- Whether a line is a question line of the transcript (starts with "Q: "). -/
def isQLine (l : String) : Bool :=
  decide (l.data.take 3 = ['Q', ':', ' '])

/-- Whether a line is an answer line of the transcript (starts with "A: "). -/
def isALine (l : String) : Bool :=
  decide (l.data.take 3 = ['A', ':', ' '])

/-! ### Frame lemmas for the image-store block -/

theorem storeImage_started (s : SessionState) (img : Nat) :
    (storeImage s img).conversation_started = s.conversation_started := by
  unfold storeImage; split <;> rfl

theorem storeImage_questions (s : SessionState) (img : Nat) :
    (storeImage s img).triage_questions = s.triage_questions := by
  unfold storeImage; split <;> rfl

theorem storeImage_index (s : SessionState) (img : Nat) :
    (storeImage s img).current_question_index = s.current_question_index := by
  unfold storeImage; split <;> rfl

theorem storeImage_history (s : SessionState) (img : Nat) :
    (storeImage s img).conversation_history = s.conversation_history := by
  unfold storeImage; split <;> rfl

theorem storeImage_final (s : SessionState) (img : Nat) :
    (storeImage s img).final_analysis = s.final_analysis := by
  unfold storeImage; split <;> rfl

theorem storeImage_image (s : SessionState) (img : Nat) :
    (storeImage s img).image = if s.image = none then some img else s.image := by
  unfold storeImage; split <;> simp_all

theorem storeImage_of_isSome (s : SessionState) (img : Nat) (h : s.image.isSome) :
    storeImage s img = s := by
  unfold storeImage
  cases himg : s.image with
  | none => rw [himg] at h; simp at h
  | some v => simp [himg]

theorem sessionInv_storeImage (s : SessionState) (img : Nat) (h : SessionInv s) :
    SessionInv (storeImage s img) := by
  unfold SessionInv at h ⊢
  rw [storeImage_started, storeImage_questions, storeImage_index, storeImage_history,
    storeImage_final]
  exact h

/-! ### Characterization of the question render -/

theorem questionRender_cases (s : SessionState) (click : Click) :
    ((questionRender s click).state = s ∧ (questionRender s click).rerun = false
      ∧ (questionRender s click).narrCalls = 0)
    ∨ (∃ q a qs, click = Click.answer a
        ∧ s.triage_questions = JVal.jarr qs
        ∧ s.current_question_index < qs.length
        ∧ questionRender s click =
            ⟨answerCommitState s q a, true, false, 0, none, none⟩) := by
  unfold questionRender
  cases hq : s.triage_questions with
  | jnull => simp [exnResult]
  | jbool b => simp [exnResult]
  | jnum n => simp [exnResult]
  | jstr str => simp [exnResult]
  | jobj f => simp [exnResult]
  | jarr qs =>
    cases hg : qs[s.current_question_index]? with
    | none => simp [hg, exnResult]
    | some v =>
      have hlt : s.current_question_index < qs.length := by
        by_contra hle
        rw [List.getElem?_eq_none (Nat.le_of_not_lt hle)] at hg
        cases hg
      simp only [hg]
      cases v with
      | jnull => simp [exnResult]
      | jbool b => simp [exnResult]
      | jnum n => simp [exnResult]
      | jstr str => simp [exnResult]
      | jarr l => simp [exnResult]
      | jobj fobj =>
        cases hl1 : List.lookup "question_text" fobj with
        | none => simp [hl1, exnResult]
        | some qv =>
          simp only [hl1]
          cases hl2 : List.lookup "options" fobj with
          | none => simp [hl2, exnResult]
          | some ov =>
            simp only [hl2]
            cases qv with
            | jstr q_text =>
              cases ov with
              | jarr q_options =>
                cases click with
                | noClick => simp [noopResult]
                | startTriage parsed => simp [noopResult]
                | answer opt =>
                  cases hc : optionClicked q_options opt with
                  | false =>
                    left
                    simp [hc, noopResult]
                  | true =>
                    right
                    refine ⟨q_text, opt, qs, rfl, rfl, hlt, ?_⟩
                    simp [hc, answerCommitState, hq]
              | jnull => simp [exnResult]
              | jbool b => simp [exnResult]
              | jnum n => simp [exnResult]
              | jstr str2 => simp [exnResult]
              | jobj f2 => simp [exnResult]
            | jnull => simp [exnResult]
            | jbool b => simp [exnResult]
            | jnum n => simp [exnResult]
            | jarr l => simp [exnResult]
            | jobj f2 => simp [exnResult]

theorem questionRender_quiet (s : SessionState) (click : Click)
    (h : ∀ opt, click ≠ Click.answer opt) :
    (questionRender s click).state = s ∧ (questionRender s click).rerun = false
    ∧ (questionRender s click).narrCalls = 0 := by
  rcases questionRender_cases s click with hcase | ⟨q, a, qs, hclick, _, _, _⟩
  · exact hcase
  · exact absurd hclick (h a)

/-! ### Branch lemmas for the conversation block and the script run -/

theorem conversationSection_not_started (t : SessionState) (click : Click) (narr : ModelReply)
    (h : t.conversation_started = false) :
    conversationSection t click narr = noopResult t := by
  unfold conversationSection
  rw [h]
  simp

theorem conversationSection_stuck (t : SessionState) (click : Click) (narr : ModelReply)
    (hst : t.conversation_started = true) (hn : pyLen t.triage_questions = none) :
    conversationSection t click narr = exnResult t "TypeError" := by
  unfold conversationSection
  rw [hst]
  simp only [hn, if_true]

theorem conversationSection_asking (t : SessionState) (click : Click) (narr : ModelReply)
    (n : Nat) (hst : t.conversation_started = true)
    (hn : pyLen t.triage_questions = some n) (hlt : t.current_question_index < n) :
    conversationSection t click narr = questionRender t click := by
  unfold conversationSection
  rw [hst]
  simp only [hn, if_true]
  rw [if_pos hlt]

theorem conversationSection_analysis (t : SessionState) (click : Click) (narr : ModelReply)
    (n : Nat) (hst : t.conversation_started = true)
    (hn : pyLen t.triage_questions = some n) (hge : ¬ t.current_question_index < n) :
    conversationSection t click narr = analysisBranch t narr := by
  unfold conversationSection
  rw [hst]
  simp only [hn, if_true]
  rw [if_neg hge]

theorem runScript_none (t : SessionState) (click : Click) (narr : ModelReply) :
    runScript t none click narr = noopResult t := rfl

theorem runScript_start_shown (t : SessionState) (img : Nat) (parsed : Option JVal)
    (narr : ModelReply)
    (h : (storeImage t img).conversation_started = false
      ∧ (storeImage t img).final_analysis = none) :
    runScript t (some img) (Click.startTriage parsed) narr
      = startTriageHandler (storeImage t img) parsed := by
  simp only [runScript]
  rw [if_pos h]

theorem runScript_start_hidden (t : SessionState) (img : Nat) (parsed : Option JVal)
    (narr : ModelReply)
    (h : ¬((storeImage t img).conversation_started = false
      ∧ (storeImage t img).final_analysis = none)) :
    runScript t (some img) (Click.startTriage parsed) narr
      = conversationSection (storeImage t img) (Click.startTriage parsed) narr := by
  simp only [runScript]
  rw [if_neg h]

theorem runScript_nonstart (t : SessionState) (img : Nat) (click : Click) (narr : ModelReply)
    (h : ∀ p, click ≠ Click.startTriage p) :
    runScript t (some img) click narr
      = conversationSection (storeImage t img) click narr := by
  simp only [runScript]
  split
  · cases click with
    | noClick => rfl
    | answer opt => rfl
    | startTriage p => exact absurd rfl (h p)
  · rfl

theorem storeImage_isSome (s : SessionState) (img : Nat) :
    (storeImage s img).image.isSome := by
  unfold storeImage
  split
  · rfl
  · next h => simpa [Option.isSome_iff_ne_none] using h

/-! ### Rerun-cascade lemmas -/

theorem cascade_run (x : SessionState) (img : Nat) (narr : ModelReply)
    (himg : x.image.isSome) :
    runScript x (some img) Click.noClick narr = conversationSection x Click.noClick narr := by
  rw [runScript_nonstart x img Click.noClick narr (fun p h => nomatch h),
    storeImage_of_isSome x img himg]

theorem cascade_quiet (x : SessionState) (img : Nat) (narr : ModelReply)
    (himg : x.image.isSome)
    (h : x.conversation_started = true →
      ∀ n, pyLen x.triage_questions = some n → x.current_question_index < n) :
    (runScript x (some img) Click.noClick narr).state = x
    ∧ (runScript x (some img) Click.noClick narr).rerun = false
    ∧ (runScript x (some img) Click.noClick narr).narrCalls = 0 := by
  rw [cascade_run x img narr himg]
  cases hst : x.conversation_started with
  | false =>
    rw [conversationSection_not_started _ _ _ hst]
    exact ⟨rfl, rfl, rfl⟩
  | true =>
    cases hpl : pyLen x.triage_questions with
    | none =>
      rw [conversationSection_stuck _ _ _ hst hpl]
      exact ⟨rfl, rfl, rfl⟩
    | some n =>
      rw [conversationSection_asking _ _ _ n hst hpl (h hst n hpl)]
      exact questionRender_quiet x Click.noClick (fun o hx => nomatch hx)

theorem cascade_analysis (x : SessionState) (img : Nat) (narr : ModelReply) (n : Nat)
    (himg : x.image.isSome) (hst : x.conversation_started = true)
    (hpl : pyLen x.triage_questions = some n) (hge : ¬ x.current_question_index < n) :
    runScript x (some img) Click.noClick narr = analysisBranch x narr := by
  rw [cascade_run x img narr himg, conversationSection_analysis _ _ _ n hst hpl hge]

theorem callsIffZero (t s : SessionState) (h : t.final_analysis = s.final_analysis) :
    ((0 : Nat) = 1 ↔ (t.final_analysis.isSome ∧ s.final_analysis = none)) := by
  constructor
  · intro h01
    exact absurd h01 (by omega)
  · rintro ⟨ha, hb⟩
    rw [h, hb] at ha
    simp at ha

theorem callsIffOne (t s : SessionState) (ha : t.final_analysis.isSome = true)
    (hb : s.final_analysis = none) :
    ((1 : Nat) = 1 ↔ (t.final_analysis.isSome ∧ s.final_analysis = none)) := by
  simp [ha, hb]

theorem startTriageHandler_jobj (t : SessionState) (fields : List (String × JVal)) :
    startTriageHandler t (some (JVal.jobj fields))
      = ⟨startCommitState t fields, true, false, 0, none, none⟩ := rfl

theorem analysisBranch_eq (t : SessionState) (narr : ModelReply) :
    analysisBranch t narr
      = ⟨analysisDoneState t narr, true, false, 1,
          some (create_final_analysis_prompt t.conversation_history), none⟩ := rfl

/-! ### The master step lemma: the invariant is preserved by every user
interaction, each interaction makes at most one narrative call, and it makes
exactly one call precisely when it completes the final analysis. -/

theorem sessionInv_userStepR (s : SessionState) (hInv : SessionInv s) (u : Option Nat)
    (click : Click) (narr : ModelReply) :
    SessionInv (userStepR s u click narr).1
    ∧ (userStepR s u click narr).2 ≤ 1
    ∧ ((userStepR s u click narr).2 = 1 ↔
        ((userStepR s u click narr).1.final_analysis.isSome
          ∧ s.final_analysis = none)) := by
  obtain ⟨h1, h2, h3, h4⟩ := hInv
  cases u with
  | none =>
    have hstep : userStepR s none click narr = (s, 0) := by
      simp [userStepR, runScript_none, noopResult]
    rw [hstep]
    exact ⟨⟨h1, h2, h3, h4⟩, Nat.zero_le 1, callsIffZero s s rfl⟩
  | some img =>
    obtain ⟨t1, t2, t3, t4⟩ := sessionInv_storeImage s img ⟨h1, h2, h3, h4⟩
    have htImg : (storeImage s img).image.isSome = true := storeImage_isSome s img
    have htFin : (storeImage s img).final_analysis = s.final_analysis := storeImage_final s img
    by_cases hguard : ((storeImage s img).conversation_started = false
      ∧ (storeImage s img).final_analysis = none)
    · -- the start-triage button is shown (so the conversation has not started)
      cases click with
      | noClick =>
        have he1 : runScript s (some img) Click.noClick narr
            = noopResult (storeImage s img) := by
          rw [runScript_nonstart s img Click.noClick narr (fun p h => nomatch h)]
          exact conversationSection_not_started _ _ _ hguard.1
        have hstep : userStepR s (some img) Click.noClick narr = (storeImage s img, 0) := by
          simp [userStepR, he1, noopResult]
        rw [hstep]
        exact ⟨⟨t1, t2, t3, t4⟩, Nat.zero_le 1, callsIffZero _ _ htFin⟩
      | answer opt =>
        have he1 : runScript s (some img) (Click.answer opt) narr
            = noopResult (storeImage s img) := by
          rw [runScript_nonstart s img (Click.answer opt) narr (fun p h => nomatch h)]
          exact conversationSection_not_started _ _ _ hguard.1
        have hstep : userStepR s (some img) (Click.answer opt) narr
            = (storeImage s img, 0) := by
          simp [userStepR, he1, noopResult]
        rw [hstep]
        exact ⟨⟨t1, t2, t3, t4⟩, Nat.zero_le 1, callsIffZero _ _ htFin⟩
      | startTriage parsed =>
        rcases hobj : parsed with _ | data
        · have he1 : runScript s (some img) (Click.startTriage none) narr
              = ⟨storeImage s img, false, true, 0, none, none⟩ := by
            rw [runScript_start_shown s img none narr hguard]
            rfl
          have hstep : userStepR s (some img) (Click.startTriage none) narr
              = (storeImage s img, 0) := by
            simp [userStepR, he1]
          rw [hstep]
          exact ⟨⟨t1, t2, t3, t4⟩, Nat.zero_le 1, callsIffZero _ _ htFin⟩
        · cases data with
          | jobj fields =>
            have he1 : runScript s (some img)
                (Click.startTriage (some (JVal.jobj fields))) narr
                = ⟨startCommitState (storeImage s img) fields, true, false, 0, none, none⟩ := by
              rw [runScript_start_shown s img _ narr hguard, startTriageHandler_jobj]
            have hcImg : (startCommitState (storeImage s img) fields).image.isSome = true :=
              htImg
            have hcSt : (startCommitState (storeImage s img) fields).conversation_started
                = true := rfl
            cases hpl : pyLen ((List.lookup "questions" fields).getD (.jarr [])) with
            | none =>
              have he2 : runScript (startCommitState (storeImage s img) fields)
                  (some img) Click.noClick narr
                  = exnResult (startCommitState (storeImage s img) fields) "TypeError" := by
                rw [cascade_run (startCommitState (storeImage s img) fields) img narr hcImg]
                exact conversationSection_stuck _ _ _ hcSt hpl
              have hstep : userStepR s (some img)
                  (Click.startTriage (some (JVal.jobj fields))) narr
                  = (startCommitState (storeImage s img) fields, 0) := by
                simp [userStepR, he1, he2, exnResult]
              rw [hstep]
              refine ⟨⟨rfl, fun m hm => Nat.zero_le m, ?_, ?_⟩, Nat.zero_le 1,
                callsIffZero _ _ htFin⟩
              · intro hsome
                simp [startCommitState, hguard.2] at hsome
              · intro hT m hm
                simp [startCommitState, hpl] at hm
            | some n =>
              by_cases h0 : (0 : Nat) < n
              · have he2 := cascade_quiet (startCommitState (storeImage s img) fields)
                  img narr hcImg
                  (by
                    intro _ m hm
                    have hm' : pyLen ((List.lookup "questions" fields).getD (.jarr []))
                        = some m := hm
                    have hnm : n = m := Option.some.inj (hpl.symm.trans hm')
                    show (0 : Nat) < m
                    omega)
                have hstep : userStepR s (some img)
                    (Click.startTriage (some (JVal.jobj fields))) narr
                    = (startCommitState (storeImage s img) fields, 0) := by
                  simp [userStepR, he1, he2.1, he2.2.1, he2.2.2]
                rw [hstep]
                refine ⟨⟨rfl, fun m hm => Nat.zero_le m, ?_, ?_⟩, Nat.zero_le 1,
                  callsIffZero _ _ htFin⟩
                · intro hsome
                  simp [startCommitState, hguard.2] at hsome
                · intro hT m hm
                  have hm' : pyLen ((List.lookup "questions" fields).getD (.jarr []))
                      = some m := hm
                  have hnm : n = m := Option.some.inj (hpl.symm.trans hm')
                  show (0 : Nat) < m
                  omega
              · have he2 : runScript (startCommitState (storeImage s img) fields)
                    (some img) Click.noClick narr
                    = analysisBranch (startCommitState (storeImage s img) fields) narr :=
                  cascade_analysis (startCommitState (storeImage s img) fields)
                    img narr n hcImg hcSt hpl h0
                have he3 := cascade_quiet
                  (analysisDoneState (startCommitState (storeImage s img) fields) narr)
                  img narr htImg (fun hstT => Bool.noConfusion hstT)
                have hstep : userStepR s (some img)
                    (Click.startTriage (some (JVal.jobj fields))) narr
                    = (analysisDoneState (startCommitState (storeImage s img) fields) narr,
                        1) := by
                  simp [userStepR, he1, he2, he3.1, he3.2.1, he3.2.2, analysisBranch_eq]
                rw [hstep]
                refine ⟨⟨rfl, fun m hm => Nat.zero_le m, fun _ => rfl,
                  fun hT => Bool.noConfusion hT⟩, Nat.le_refl 1,
                  callsIffOne _ _ rfl ?_⟩
                rw [← htFin]
                exact hguard.2
          | jnull =>
            have he1 : runScript s (some img) (Click.startTriage (some JVal.jnull)) narr
                = ⟨storeImage s img, false, false, 0, none, some "AttributeError"⟩ := by
              rw [runScript_start_shown s img _ narr hguard]
              rfl
            have hstep : userStepR s (some img) (Click.startTriage (some JVal.jnull)) narr
                = (storeImage s img, 0) := by
              simp [userStepR, he1]
            rw [hstep]
            exact ⟨⟨t1, t2, t3, t4⟩, Nat.zero_le 1, callsIffZero _ _ htFin⟩
          | jbool b =>
            have he1 : runScript s (some img)
                (Click.startTriage (some (JVal.jbool b))) narr
                = ⟨storeImage s img, false, false, 0, none, some "AttributeError"⟩ := by
              rw [runScript_start_shown s img _ narr hguard]
              rfl
            have hstep : userStepR s (some img)
                (Click.startTriage (some (JVal.jbool b))) narr
                = (storeImage s img, 0) := by
              simp [userStepR, he1]
            rw [hstep]
            exact ⟨⟨t1, t2, t3, t4⟩, Nat.zero_le 1, callsIffZero _ _ htFin⟩
          | jnum n =>
            have he1 : runScript s (some img)
                (Click.startTriage (some (JVal.jnum n))) narr
                = ⟨storeImage s img, false, false, 0, none, some "AttributeError"⟩ := by
              rw [runScript_start_shown s img _ narr hguard]
              rfl
            have hstep : userStepR s (some img)
                (Click.startTriage (some (JVal.jnum n))) narr
                = (storeImage s img, 0) := by
              simp [userStepR, he1]
            rw [hstep]
            exact ⟨⟨t1, t2, t3, t4⟩, Nat.zero_le 1, callsIffZero _ _ htFin⟩
          | jstr str =>
            have he1 : runScript s (some img)
                (Click.startTriage (some (JVal.jstr str))) narr
                = ⟨storeImage s img, false, false, 0, none, some "AttributeError"⟩ := by
              rw [runScript_start_shown s img _ narr hguard]
              rfl
            have hstep : userStepR s (some img)
                (Click.startTriage (some (JVal.jstr str))) narr
                = (storeImage s img, 0) := by
              simp [userStepR, he1]
            rw [hstep]
            exact ⟨⟨t1, t2, t3, t4⟩, Nat.zero_le 1, callsIffZero _ _ htFin⟩
          | jarr elems =>
            have he1 : runScript s (some img)
                (Click.startTriage (some (JVal.jarr elems))) narr
                = ⟨storeImage s img, false, false, 0, none, some "AttributeError"⟩ := by
              rw [runScript_start_shown s img _ narr hguard]
              rfl
            have hstep : userStepR s (some img)
                (Click.startTriage (some (JVal.jarr elems))) narr
                = (storeImage s img, 0) := by
              simp [userStepR, he1]
            rw [hstep]
            exact ⟨⟨t1, t2, t3, t4⟩, Nat.zero_le 1, callsIffZero _ _ htFin⟩
    · -- the start-triage button is not shown
      have he1 : runScript s (some img) click narr
          = conversationSection (storeImage s img) click narr := by
        cases click with
        | startTriage p => exact runScript_start_hidden s img p narr hguard
        | noClick => exact runScript_nonstart s img Click.noClick narr (fun p h => nomatch h)
        | answer o => exact runScript_nonstart s img (Click.answer o) narr (fun p h => nomatch h)
      cases hstT : (storeImage s img).conversation_started with
      | false =>
        have he1q : runScript s (some img) click narr = noopResult (storeImage s img) := by
          rw [he1]
          exact conversationSection_not_started _ _ _ hstT
        have hstep : userStepR s (some img) click narr = (storeImage s img, 0) := by
          simp [userStepR, he1q, noopResult]
        rw [hstep]
        exact ⟨⟨t1, t2, t3, t4⟩, Nat.zero_le 1, callsIffZero _ _ htFin⟩
      | true =>
        have hfin : (storeImage s img).final_analysis = none := by
          cases hf : (storeImage s img).final_analysis with
          | none => rfl
          | some v => exact absurd (t3 (by rw [hf]; rfl)) (by rw [hstT]; simp)
        have hsfin : s.final_analysis = none := by
          rw [← htFin]
          exact hfin
        cases hpl : pyLen (storeImage s img).triage_questions with
        | none =>
          have he1q : runScript s (some img) click narr
              = exnResult (storeImage s img) "TypeError" := by
            rw [he1]
            exact conversationSection_stuck _ _ _ hstT hpl
          have hstep : userStepR s (some img) click narr = (storeImage s img, 0) := by
            simp [userStepR, he1q, exnResult]
          rw [hstep]
          exact ⟨⟨t1, t2, t3, t4⟩, Nat.zero_le 1, callsIffZero _ _ htFin⟩
        | some n =>
          by_cases hidx : (storeImage s img).current_question_index < n
          · have he1q : runScript s (some img) click narr
                = questionRender (storeImage s img) click := by
              rw [he1]
              exact conversationSection_asking _ _ _ n hstT hpl hidx
            rcases questionRender_cases (storeImage s img) click with
              ⟨hqs, hqr, hqc⟩ | ⟨q, a, qs, hclick, hq, hlt, heqQR⟩
            · have hstep : userStepR s (some img) click narr = (storeImage s img, 0) := by
                simp [userStepR, he1q, hqs, hqr, hqc]
              rw [hstep]
              exact ⟨⟨t1, t2, t3, t4⟩, Nat.zero_le 1, callsIffZero _ _ htFin⟩
            · have hn : n = qs.length := by
                rw [hq] at hpl
                simpa [pyLen] using hpl.symm
              have haImg : (answerCommitState (storeImage s img) q a).image.isSome
                  = true := htImg
              have haSt : (answerCommitState (storeImage s img) q a).conversation_started
                  = true := hstT
              by_cases hidx2 : (storeImage s img).current_question_index + 1 < qs.length
              · have he2 := cascade_quiet (answerCommitState (storeImage s img) q a)
                  img narr haImg
                  (by
                    intro _ m hm
                    have hm' : pyLen (storeImage s img).triage_questions = some m := hm
                    have hnm : n = m := Option.some.inj (hpl.symm.trans hm')
                    show (storeImage s img).current_question_index + 1 < m
                    omega)
                have hstep : userStepR s (some img) click narr
                    = (answerCommitState (storeImage s img) q a, 0) := by
                  simp [userStepR, he1q, heqQR, he2.1, he2.2.1, he2.2.2]
                rw [hstep]
                refine ⟨⟨?_, ?_, ?_, ?_⟩, Nat.zero_le 1, callsIffZero _ _ htFin⟩
                · show ((storeImage s img).conversation_history ++ [(q, a)]).length
                    = (storeImage s img).current_question_index + 1
                  simp [t1]
                · intro m hm
                  have hm' : pyLen (storeImage s img).triage_questions = some m := hm
                  have hnm : n = m := Option.some.inj (hpl.symm.trans hm')
                  show (storeImage s img).current_question_index + 1 ≤ m
                  omega
                · intro hsome
                  simp [answerCommitState, hfin] at hsome
                · intro hT m hm
                  have hm' : pyLen (storeImage s img).triage_questions = some m := hm
                  have hnm : n = m := Option.some.inj (hpl.symm.trans hm')
                  show (storeImage s img).current_question_index + 1 < m
                  omega
              · have he2 : runScript (answerCommitState (storeImage s img) q a)
                    (some img) Click.noClick narr
                    = analysisBranch (answerCommitState (storeImage s img) q a) narr :=
                  cascade_analysis (answerCommitState (storeImage s img) q a)
                    img narr n haImg haSt hpl (by
                      show ¬ (storeImage s img).current_question_index + 1 < n
                      omega)
                have he3 := cascade_quiet
                  (analysisDoneState (answerCommitState (storeImage s img) q a) narr)
                  img narr htImg (fun hstT' => Bool.noConfusion hstT')
                have hstep : userStepR s (some img) click narr
                    = (analysisDoneState (answerCommitState (storeImage s img) q a) narr,
                        1) := by
                  simp [userStepR, he1q, heqQR, he2, he3.1, he3.2.1, he3.2.2,
                    analysisBranch_eq]
                rw [hstep]
                refine ⟨⟨?_, ?_, fun _ => rfl, fun hT => Bool.noConfusion hT⟩,
                  Nat.le_refl 1, callsIffOne _ _ rfl hsfin⟩
                · show ((storeImage s img).conversation_history ++ [(q, a)]).length
                    = (storeImage s img).current_question_index + 1
                  simp [t1]
                · intro m hm
                  have hm' : pyLen (storeImage s img).triage_questions = some m := hm
                  have hnm : n = m := Option.some.inj (hpl.symm.trans hm')
                  show (storeImage s img).current_question_index + 1 ≤ m
                  omega
          · have he1q : runScript s (some img) click narr
                = analysisBranch (storeImage s img) narr := by
              rw [he1]
              exact conversationSection_analysis _ _ _ n hstT hpl hidx
            have he2 := cascade_quiet (analysisDoneState (storeImage s img) narr)
              img narr htImg (fun hstT' => Bool.noConfusion hstT')
            have hstep : userStepR s (some img) click narr
                = (analysisDoneState (storeImage s img) narr, 1) := by
              simp [userStepR, he1q, he2.1, he2.2.1, he2.2.2, analysisBranch_eq]
            rw [hstep]
            exact ⟨⟨t1, t2, fun _ => rfl, fun hT => Bool.noConfusion hT⟩,
              Nat.le_refl 1, callsIffOne _ _ rfl hsfin⟩

/-! ### Reachability and the invariant -/

theorem sessionInv_initState : SessionInv initState :=
  ⟨rfl, fun n _ => Nat.zero_le n, fun h => Bool.noConfusion h, fun h => Bool.noConfusion h⟩

theorem reachable_inv (s : SessionState) (h : Reachable s) : SessionInv s := by
  induction h with
  | init => exact sessionInv_initState
  | step s hs u c narr ih => exact (sessionInv_userStepR s ih u c narr).1

theorem conversationSection_noClick_quiet (x : SessionState) (narr : ModelReply)
    (h : x.conversation_started = true →
      ∀ n, pyLen x.triage_questions = some n → x.current_question_index < n) :
    (conversationSection x Click.noClick narr).state = x
    ∧ (conversationSection x Click.noClick narr).rerun = false
    ∧ (conversationSection x Click.noClick narr).narrCalls = 0 := by
  cases hst : x.conversation_started with
  | false =>
    rw [conversationSection_not_started _ _ _ hst]
    exact ⟨rfl, rfl, rfl⟩
  | true =>
    cases hpl : pyLen x.triage_questions with
    | none =>
      rw [conversationSection_stuck _ _ _ hst hpl]
      exact ⟨rfl, rfl, rfl⟩
    | some n =>
      rw [conversationSection_asking _ _ _ n hst hpl (h hst n hpl)]
      exact questionRender_quiet x Click.noClick (fun o hx => nomatch hx)

theorem reachable_render_quiet (s : SessionState) (hInv : SessionInv s) (u : Option Nat)
    (narr : ModelReply) :
    (runScript s u Click.noClick narr).state.conversation_history = s.conversation_history
    ∧ (runScript s u Click.noClick narr).state.current_question_index
        = s.current_question_index
    ∧ (runScript s u Click.noClick narr).state.final_analysis = s.final_analysis
    ∧ (runScript s u Click.noClick narr).rerun = false
    ∧ (runScript s u Click.noClick narr).narrCalls = 0 := by
  obtain ⟨h1, h2, h3, h4⟩ := hInv
  cases u with
  | none =>
    rw [runScript_none]
    exact ⟨rfl, rfl, rfl, rfl, rfl⟩
  | some img =>
    rw [runScript_nonstart s img Click.noClick narr (fun p hp => nomatch hp)]
    have hq := conversationSection_noClick_quiet (storeImage s img) narr
      (by
        intro hstT m hm
        have hst' : s.conversation_started = true := by
          rw [← storeImage_started s img]
          exact hstT
        have hm' : pyLen s.triage_questions = some m := by
          rw [← storeImage_questions s img]
          exact hm
        have := h4 hst' m hm'
        show (storeImage s img).current_question_index < m
        rw [storeImage_index]
        exact this)
    rw [hq.1, hq.2.1, hq.2.2]
    exact ⟨storeImage_history s img, storeImage_index s img, storeImage_final s img,
      rfl, rfl⟩

theorem conversationSection_noClick_image (x : SessionState) (narr : ModelReply) :
    (conversationSection x Click.noClick narr).state.image = x.image := by
  cases hst : x.conversation_started with
  | false =>
    rw [conversationSection_not_started _ _ _ hst]
    rfl
  | true =>
    cases hpl : pyLen x.triage_questions with
    | none =>
      rw [conversationSection_stuck _ _ _ hst hpl]
      rfl
    | some n =>
      by_cases hidx : x.current_question_index < n
      · rw [conversationSection_asking _ _ _ n hst hpl hidx]
        rw [(questionRender_quiet x Click.noClick (fun o hx => nomatch hx)).1]
      · rw [conversationSection_analysis _ _ _ n hst hpl hidx, analysisBranch_eq]
        rfl

/-! ### Structure of the interpolated transcript -/

theorem qaBlock_split (q a : String) :
    ("Q: " ++ q ++ "\nA: " ++ a : String) = ("Q: " ++ q) ++ "\n" ++ ("A: " ++ a) := by
  have h : ("\nA: " : String) = "\n" ++ "A: " := by decide
  rw [h, ← String.append_assoc ("Q: " ++ q) "\n" "A: ",
    String.append_assoc ("Q: " ++ q ++ "\n") "A: " a]

theorem pyJoin_pair_merge (sep x y : String) (zs : List String) :
    pyJoin sep (x :: y :: zs) = pyJoin sep ((x ++ sep ++ y) :: zs) := by
  cases zs with
  | nil => rfl
  | cons z zsTail => simp [pyJoin, String.append_assoc]

theorem pyJoin_cons (sep x : String) (xs : List String) :
    pyJoin sep (x :: xs) = x ++ (if xs.isEmpty then "" else sep ++ pyJoin sep xs) := by
  cases xs with
  | nil => simp [pyJoin]
  | cons y ys => simp [pyJoin, String.append_assoc]

theorem pyJoin_qaLines (h : List (String × String)) :
    pyJoin "\n" (h.map (fun p => "Q: " ++ p.1 ++ "\nA: " ++ p.2))
      = pyJoin "\n" (qaLines h) := by
  induction h with
  | nil => rfl
  | cons p rest ih =>
    rw [show (p :: rest).map (fun p => "Q: " ++ p.1 ++ "\nA: " ++ p.2)
        = ("Q: " ++ p.1 ++ "\nA: " ++ p.2)
          :: rest.map (fun p => "Q: " ++ p.1 ++ "\nA: " ++ p.2) from rfl]
    rw [show qaLines (p :: rest)
        = ("Q: " ++ p.1) :: ("A: " ++ p.2) :: qaLines rest from rfl]
    rw [pyJoin_pair_merge, ← qaBlock_split, pyJoin_cons, pyJoin_cons, ih]
    congr 1
    cases rest with
    | nil => rfl
    | cons p2 rest2 => rfl

theorem isQLine_q (q : String) : isQLine ("Q: " ++ q) = true := by
  simp only [isQLine, decide_eq_true_eq, String.data_append]
  exact List.take_left' rfl

theorem isQLine_a (a : String) : isQLine ("A: " ++ a) = false := by
  simp only [isQLine, decide_eq_false_iff_not, String.data_append]
  rw [List.take_left' (show (['A', ':', ' '] : List Char).length = 3 from rfl)]
  decide

theorem isALine_a (a : String) : isALine ("A: " ++ a) = true := by
  simp only [isALine, decide_eq_true_eq, String.data_append]
  exact List.take_left' rfl

theorem isALine_q (q : String) : isALine ("Q: " ++ q) = false := by
  simp only [isALine, decide_eq_false_iff_not, String.data_append]
  rw [List.take_left' (show (['Q', ':', ' '] : List Char).length = 3 from rfl)]
  decide

theorem qaLines_filter_q (h : List (String × String)) :
    (qaLines h).filter isQLine = h.map (fun p => "Q: " ++ p.1) := by
  induction h with
  | nil => rfl
  | cons p rest ih =>
    show (("Q: " ++ p.1) :: ("A: " ++ p.2) :: qaLines rest).filter isQLine = _
    rw [List.filter_cons, List.filter_cons]
    simp [isQLine_q, isQLine_a, ih]

theorem qaLines_filter_a (h : List (String × String)) :
    (qaLines h).filter isALine = h.map (fun p => "A: " ++ p.2) := by
  induction h with
  | nil => rfl
  | cons p rest ih =>
    show (("Q: " ++ p.1) :: ("A: " ++ p.2) :: qaLines rest).filter isALine = _
    rw [List.filter_cons, List.filter_cons]
    simp [isALine_q, isALine_a, ih]

/-! ### Shared helper: the run that fires the final-analysis branch -/

theorem runScript_analysis_step (s : SessionState) (img : Nat) (click : Click)
    (narr : ModelReply) (n : Nat)
    (hstart : s.conversation_started = true)
    (hn : pyLen s.triage_questions = some n)
    (hidx : s.current_question_index = n) :
    runScript s (some img) click narr = analysisBranch (storeImage s img) narr := by
  have hstT : (storeImage s img).conversation_started = true := by
    rw [storeImage_started]
    exact hstart
  have hguard : ¬((storeImage s img).conversation_started = false
      ∧ (storeImage s img).final_analysis = none) := by
    intro hc
    rw [hstT] at hc
    exact Bool.noConfusion hc.1
  have he1 : runScript s (some img) click narr
      = conversationSection (storeImage s img) click narr := by
    cases click with
    | startTriage p => exact runScript_start_hidden s img p narr hguard
    | noClick => exact runScript_nonstart s img Click.noClick narr (fun p hp => nomatch hp)
    | answer o => exact runScript_nonstart s img (Click.answer o) narr (fun p hp => nomatch hp)
  have hnT : pyLen (storeImage s img).triage_questions = some n := by
    rw [storeImage_questions]
    exact hn
  have hgeT : ¬ (storeImage s img).current_question_index < n := by
    rw [storeImage_index, hidx]
    omega
  rw [he1]
  exact conversationSection_analysis _ _ _ n hstT hnT hgeT

/-! ### The claims -/

/-- C1: if the start-triage action receives a reply that fails JSON parsing,
the session stays in its prior phase with no partial state committed:
triage_questions, conversation_started, current_question_index and
conversation_history all keep their previous values, the inline error message
is shown, no exception escapes and no rerun happens. -/
theorem spec_c1 (s : SessionState) (img : Nat) (narr : ModelReply)
    (hstart : s.conversation_started = false) (hfin : s.final_analysis = none)
    (himg : s.image.isSome = true) :
    (runScript s (some img) (Click.startTriage none) narr).state.triage_questions
        = s.triage_questions
    ∧ (runScript s (some img) (Click.startTriage none) narr).state.conversation_started
        = s.conversation_started
    ∧ (runScript s (some img) (Click.startTriage none) narr).state.current_question_index
        = s.current_question_index
    ∧ (runScript s (some img) (Click.startTriage none) narr).state.conversation_history
        = s.conversation_history
    ∧ (runScript s (some img) (Click.startTriage none) narr).errorShown = true
    ∧ (runScript s (some img) (Click.startTriage none) narr).uncaught = none
    ∧ (runScript s (some img) (Click.startTriage none) narr).rerun = false
    ∧ phaseOf (runScript s (some img) (Click.startTriage none) narr).state = phaseOf s := by
  have hsi : storeImage s img = s := storeImage_of_isSome s img himg
  have hguard : (storeImage s img).conversation_started = false
      ∧ (storeImage s img).final_analysis = none := by
    rw [hsi]
    exact ⟨hstart, hfin⟩
  have he1 : runScript s (some img) (Click.startTriage none) narr
      = ⟨s, false, true, 0, none, none⟩ := by
    rw [runScript_start_shown s img none narr hguard, hsi]
    rfl
  rw [he1]
  exact ⟨rfl, rfl, rfl, rfl, rfl, rfl, rfl, rfl⟩

/-- Witness for C1 at a concrete awaiting-triage-start session. -/
theorem spec_c1_witness :
    (runScript ⟨false, JVal.jarr [], 0, [], none, some 5⟩ (some 7)
        (Click.startTriage none) (ModelReply.success "ok")).errorShown = true
    ∧ (runScript ⟨false, JVal.jarr [], 0, [], none, some 5⟩ (some 7)
        (Click.startTriage none) (ModelReply.success "ok")).state.triage_questions
      = (⟨false, JVal.jarr [], 0, [], none, some 5⟩ : SessionState).triage_questions :=
  ⟨(spec_c1 ⟨false, JVal.jarr [], 0, [], none, some 5⟩ 7 (ModelReply.success "ok")
      rfl rfl rfl).2.2.2.2.1,
    (spec_c1 ⟨false, JVal.jarr [], 0, [], none, some 5⟩ 7 (ModelReply.success "ok")
      rfl rfl rfl).1⟩

/-- C2: in every reachable session state the length of conversation_history
equals current_question_index. -/
theorem spec_c2 (s : SessionState) (h : Reachable s) :
    s.conversation_history.length = s.current_question_index :=
  (reachable_inv s h).1

/-- Witness for C2: the invariant evaluated after a concrete start-triage
interaction from the initial state. -/
theorem spec_c2_witness :
    (userStep initState (some 3)
        (Click.startTriage (some (JVal.jobj [("questions", JVal.jarr [])])))
        (ModelReply.success "t")).conversation_history.length
      = (userStep initState (some 3)
          (Click.startTriage (some (JVal.jobj [("questions", JVal.jarr [])])))
          (ModelReply.success "t")).current_question_index :=
  spec_c2 _ (Reachable.step initState Reachable.init (some 3)
    (Click.startTriage (some (JVal.jobj [("questions", JVal.jarr [])])))
    (ModelReply.success "t"))

/-- C3: when current_question_index reaches the number of triage questions,
the next script run synchronously (with any interaction, including none)
makes exactly one narrative gateway call whose prompt is built from the full
history, stores the raw returned text as final_analysis, and reaches the
Complete phase; a failed gateway call stores the error sentinel string the
same way. -/
theorem spec_c3 (s : SessionState) (img : Nat) (click : Click) (narr : ModelReply) (n : Nat)
    (hstart : s.conversation_started = true)
    (hn : pyLen s.triage_questions = some n)
    (hidx : s.current_question_index = n) :
    (runScript s (some img) click narr).narrCalls = 1
    ∧ (runScript s (some img) click narr).narrPrompt
        = some (create_final_analysis_prompt s.conversation_history)
    ∧ (runScript s (some img) click narr).state.final_analysis
        = some (get_gemini_text_response narr)
    ∧ (runScript s (some img) click narr).state.conversation_started = false
    ∧ phaseOf (runScript s (some img) click narr).state = Phase.complete
    ∧ (∀ e, narr = ModelReply.failure e →
        (runScript s (some img) click narr).state.final_analysis
          = some ("Error: API communication failed. " ++ e)) := by
  rw [runScript_analysis_step s img click narr n hstart hn hidx, analysisBranch_eq]
  refine ⟨rfl, ?_, rfl, rfl, ?_, ?_⟩
  · rw [storeImage_history]
  · simp [phaseOf, analysisDoneState]
  · intro e he
    subst he
    rfl

/-- Witness for C3 at a concrete completed-triage session with a failing
gateway call. -/
theorem spec_c3_witness :
    (runScript ⟨true, JVal.jarr [], 0, [], none, some 1⟩ (some 1) Click.noClick
        (ModelReply.failure "boom")).narrCalls = 1
    ∧ (runScript ⟨true, JVal.jarr [], 0, [], none, some 1⟩ (some 1) Click.noClick
        (ModelReply.failure "boom")).state.final_analysis
      = some ("Error: API communication failed. " ++ "boom") :=
  ⟨(spec_c3 ⟨true, JVal.jarr [], 0, [], none, some 1⟩ 1 Click.noClick
      (ModelReply.failure "boom") 0 rfl rfl rfl).1,
    (spec_c3 ⟨true, JVal.jarr [], 0, [], none, some 1⟩ 1 Click.noClick
      (ModelReply.failure "boom") 0 rfl rfl rfl).2.2.2.2.2 "boom" rfl⟩

/-- C4: neither gateway function raises (both are total): the structured
gateway returns the reply text with the code-fence markers stripped on
success and the synthetic JSON error object string on failure, and the
narrative gateway returns the raw reply text on success and an error-prefixed
string literal on failure. -/
theorem spec_c4 :
    (∀ t, get_gemini_json_response (ModelReply.success t)
        = ((t.trim).replace "```json" "").replace "```" "")
    ∧ (∀ e, get_gemini_json_response (ModelReply.failure e)
        = "\x7b\"error\": \"" ++ ("API communication failed: " ++ e) ++ "\"\x7d")
    ∧ (∀ t, get_gemini_text_response (ModelReply.success t) = t)
    ∧ (∀ e, get_gemini_text_response (ModelReply.failure e)
        = "Error: " ++ ("API communication failed. " ++ e)) := by
  refine ⟨fun t => rfl, fun e => ?_, fun t => rfl, fun e => ?_⟩
  · show ("\x7b\"error\": \"API communication failed: " ++ e ++ "\"\x7d" : String) = _
    apply String.ext
    simp only [String.data_append]
    simp [List.append_assoc]
  · show ("Error: API communication failed. " ++ e : String) = _
    rw [show ("Error: API communication failed. " : String)
        = "Error: " ++ "API communication failed. " from by decide]
    rw [String.append_assoc]

/-- C5: for every reply that parses as a JSON object, the start-triage action
sets triage_questions to the value of the "questions" key (empty list if the
key is absent), clears conversation_history, sets current_question_index to
zero, marks the conversation started, reruns with no error and no exception,
and the committed state is in phase AskingQuestion(0), or immediately
AnalysisPending when the extracted list is empty. -/
theorem spec_c5 (s : SessionState) (img : Nat) (fields : List (String × JVal))
    (narr : ModelReply)
    (hstart : s.conversation_started = false) (hfin : s.final_analysis = none) :
    (runScript s (some img) (Click.startTriage (some (JVal.jobj fields))) narr).state
        = startCommitState (storeImage s img) fields
    ∧ (runScript s (some img) (Click.startTriage (some (JVal.jobj fields))) narr).state.triage_questions
        = (List.lookup "questions" fields).getD (JVal.jarr [])
    ∧ (runScript s (some img) (Click.startTriage (some (JVal.jobj fields))) narr).state.conversation_started
        = true
    ∧ (runScript s (some img) (Click.startTriage (some (JVal.jobj fields))) narr).state.current_question_index
        = 0
    ∧ (runScript s (some img) (Click.startTriage (some (JVal.jobj fields))) narr).state.conversation_history
        = []
    ∧ (runScript s (some img) (Click.startTriage (some (JVal.jobj fields))) narr).rerun = true
    ∧ (runScript s (some img) (Click.startTriage (some (JVal.jobj fields))) narr).errorShown = false
    ∧ (runScript s (some img) (Click.startTriage (some (JVal.jobj fields))) narr).uncaught = none
    ∧ (∀ qs, (List.lookup "questions" fields).getD (JVal.jarr []) = JVal.jarr qs →
        phaseOf (runScript s (some img) (Click.startTriage (some (JVal.jobj fields))) narr).state
          = if qs.isEmpty then Phase.analysisPending else Phase.askingQuestion 0) := by
  have hguard : (storeImage s img).conversation_started = false
      ∧ (storeImage s img).final_analysis = none := by
    constructor
    · rw [storeImage_started]
      exact hstart
    · rw [storeImage_final]
      exact hfin
  have he1 : runScript s (some img) (Click.startTriage (some (JVal.jobj fields))) narr
      = ⟨startCommitState (storeImage s img) fields, true, false, 0, none, none⟩ := by
    rw [runScript_start_shown s img _ narr hguard, startTriageHandler_jobj]
  rw [he1]
  refine ⟨rfl, rfl, rfl, rfl, rfl, rfl, rfl, rfl, ?_⟩
  intro qs hqs
  have hi3 : (storeImage s img).image.isNone = false := by
    have h := storeImage_isSome s img
    cases h2 : (storeImage s img).image with
    | none =>
      rw [h2] at h
      exact Bool.noConfusion h
    | some v => rfl
  cases qs with
  | nil =>
    simp [phaseOf, startCommitState, storeImage_final, hfin, hqs, pyLen, hi3]
  | cons x rest =>
    simp [phaseOf, startCommitState, storeImage_final, hfin, hqs, pyLen, hi3]

/-- Witness for C5: a parsed object with an empty questions list commits the
started state and lands in the AnalysisPending phase. -/
theorem spec_c5_witness :
    (runScript initState (some 2)
        (Click.startTriage (some (JVal.jobj [("questions", JVal.jarr [])])))
        (ModelReply.success "ok")).state.conversation_started = true
    ∧ phaseOf (runScript initState (some 2)
        (Click.startTriage (some (JVal.jobj [("questions", JVal.jarr [])])))
        (ModelReply.success "ok")).state = Phase.analysisPending :=
  ⟨(spec_c5 initState 2 [("questions", JVal.jarr [])] (ModelReply.success "ok")
      rfl rfl).2.2.1,
    by
      have h := (spec_c5 initState 2 [("questions", JVal.jarr [])]
        (ModelReply.success "ok") rfl rfl).2.2.2.2.2.2.2.2 [] rfl
      simpa using h⟩

/-- C6: in every reachable session state current_question_index never exceeds
the number of triage questions, every user interaction makes at most one
narrative (final-analysis) call, and it makes exactly one call precisely when
it completes the final analysis, so generation is triggered exactly once per
triage run. -/
theorem spec_c6 (s : SessionState) (h : Reachable s) :
    (∀ n, pyLen s.triage_questions = some n → s.current_question_index ≤ n)
    ∧ (∀ u click narr, (userStepR s u click narr).2 ≤ 1)
    ∧ (∀ u click narr,
        ((userStepR s u click narr).2 = 1 ↔
          ((userStepR s u click narr).1.final_analysis.isSome
            ∧ s.final_analysis = none))) := by
  have hInv := reachable_inv s h
  exact ⟨hInv.2.1, fun u c narr => (sessionInv_userStepR s hInv u c narr).2.1,
    fun u c narr => (sessionInv_userStepR s hInv u c narr).2.2⟩

/-- Witness for C6 at the initial state. -/
theorem spec_c6_witness :
    initState.current_question_index ≤ 0
    ∧ (userStepR initState (some 0) Click.noClick (ModelReply.success "t")).2 ≤ 1 :=
  ⟨(spec_c6 initState Reachable.init).1 0 rfl,
    (spec_c6 initState Reachable.init).2.1 (some 0) Click.noClick (ModelReply.success "t")⟩

/-- C7: create_final_analysis_prompt embeds the history between the two fixed
template parts as the joined Q:/A: line list (it is a pure function, so it is
deterministic in its history argument); the Q-lines of that list are exactly
one "Q: " line per history entry in the original order, likewise the A-lines,
so a history of N pairs yields exactly N Q:/A: line pairs; and the single
narrative call fired when the index reaches the question count receives
exactly this prompt for the full history. -/
theorem spec_c7 :
    (∀ h : List (String × String),
        create_final_analysis_prompt h
          = analysisHead ++ pyJoin "\n" (qaLines h) ++ analysisTail)
    ∧ (∀ h : List (String × String),
        (qaLines h).filter isQLine = h.map (fun p => "Q: " ++ p.1))
    ∧ (∀ h : List (String × String),
        (qaLines h).filter isALine = h.map (fun p => "A: " ++ p.2))
    ∧ (∀ h : List (String × String), ((qaLines h).filter isQLine).length = h.length)
    ∧ (∀ (s : SessionState) (img : Nat) (click : Click) (narr : ModelReply) (n : Nat),
        s.conversation_started = true →
        pyLen s.triage_questions = some n →
        s.current_question_index = n →
        (runScript s (some img) click narr).narrCalls = 1
        ∧ (runScript s (some img) click narr).narrPrompt
            = some (create_final_analysis_prompt s.conversation_history)) := by
  refine ⟨?_, qaLines_filter_q, qaLines_filter_a, ?_, ?_⟩
  · intro h
    show analysisHead
        ++ pyJoin "\n" (h.map (fun p => "Q: " ++ p.1 ++ "\nA: " ++ p.2))
        ++ analysisTail = _
    rw [pyJoin_qaLines]
  · intro h
    rw [qaLines_filter_q]
    simp
  · intro s img click narr n hst hn hidx
    rw [runScript_analysis_step s img click narr n hst hn hidx, analysisBranch_eq]
    exact ⟨rfl, by rw [storeImage_history]⟩

/-- Witness for C7: the narrative call of a concrete completed triage receives
the prompt built from its one-entry history. -/
theorem spec_c7_witness :
    (runScript ⟨true, JVal.jarr [JVal.jnull], 1, [("Duration?", "1-3d")], none, some 2⟩
        (some 2) Click.noClick (ModelReply.success "narrative")).narrPrompt
      = some (create_final_analysis_prompt [("Duration?", "1-3d")]) :=
  (spec_c7.2.2.2.2 ⟨true, JVal.jarr [JVal.jnull], 1, [("Duration?", "1-3d")], none, some 2⟩
    2 Click.noClick (ModelReply.success "narrative") 1 rfl rfl rfl).2

/-- C8: re-rendering the UI from any reachable session state with no new
widget event leaves conversation_history, current_question_index and
final_analysis unchanged, requests no rerun and makes no narrative call. -/
theorem spec_c8 (s : SessionState) (h : Reachable s) (u : Option Nat) (narr : ModelReply) :
    (runScript s u Click.noClick narr).state.conversation_history = s.conversation_history
    ∧ (runScript s u Click.noClick narr).state.current_question_index
        = s.current_question_index
    ∧ (runScript s u Click.noClick narr).state.final_analysis = s.final_analysis
    ∧ (runScript s u Click.noClick narr).rerun = false
    ∧ (runScript s u Click.noClick narr).narrCalls = 0 :=
  reachable_render_quiet s (reachable_inv s h) u narr

/-- Witness for C8 at the initial state. -/
theorem spec_c8_witness :
    (runScript initState (some 4) Click.noClick
        (ModelReply.success "x")).state.conversation_history
      = initState.conversation_history
    ∧ (runScript initState (some 4) Click.noClick (ModelReply.success "x")).rerun
      = false :=
  ⟨(spec_c8 initState Reachable.init (some 4) (ModelReply.success "x")).1,
    (spec_c8 initState Reachable.init (some 4) (ModelReply.success "x")).2.2.2.1⟩

/-- C9: uploading an image stores it only when no image is stored yet (first
upload wins), the store leaves every other session field unchanged, and a
render run never changes the stored image beyond that store. -/
theorem spec_c9 (s : SessionState) (img : Nat) (narr : ModelReply) :
    (storeImage s img).image = (if s.image = none then some img else s.image)
    ∧ (storeImage s img).conversation_started = s.conversation_started
    ∧ (storeImage s img).triage_questions = s.triage_questions
    ∧ (storeImage s img).current_question_index = s.current_question_index
    ∧ (storeImage s img).conversation_history = s.conversation_history
    ∧ (storeImage s img).final_analysis = s.final_analysis
    ∧ (runScript s (some img) Click.noClick narr).state.image
        = (storeImage s img).image := by
  refine ⟨storeImage_image s img, storeImage_started s img, storeImage_questions s img,
    storeImage_index s img, storeImage_history s img, storeImage_final s img, ?_⟩
  rw [runScript_nonstart s img Click.noClick narr (fun p hp => nomatch hp)]
  exact conversationSection_noClick_image (storeImage s img) narr

/-- C10: a reply parsing to a non-object JSON value makes the start-triage
handler abort with an uncaught AttributeError from data.get (only
json.JSONDecodeError and KeyError are caught): the inline error message is
not shown, and the session fields are left unchanged with no rerun and no
narrative call. -/
theorem spec_c10 (s : SessionState) (img : Nat) (narr : ModelReply) (data : JVal)
    (hstart : s.conversation_started = false) (hfin : s.final_analysis = none)
    (hnotobj : data.isObj = false) :
    (runScript s (some img) (Click.startTriage (some data)) narr).uncaught
        = some "AttributeError"
    ∧ (runScript s (some img) (Click.startTriage (some data)) narr).errorShown = false
    ∧ (runScript s (some img) (Click.startTriage (some data)) narr).rerun = false
    ∧ (runScript s (some img) (Click.startTriage (some data)) narr).state.triage_questions
        = s.triage_questions
    ∧ (runScript s (some img) (Click.startTriage (some data)) narr).state.conversation_started
        = s.conversation_started
    ∧ (runScript s (some img) (Click.startTriage (some data)) narr).state.current_question_index
        = s.current_question_index
    ∧ (runScript s (some img) (Click.startTriage (some data)) narr).state.conversation_history
        = s.conversation_history
    ∧ (runScript s (some img) (Click.startTriage (some data)) narr).narrCalls = 0 := by
  have hguard : (storeImage s img).conversation_started = false
      ∧ (storeImage s img).final_analysis = none := by
    constructor
    · rw [storeImage_started]
      exact hstart
    · rw [storeImage_final]
      exact hfin
  have he1 : runScript s (some img) (Click.startTriage (some data)) narr
      = ⟨storeImage s img, false, false, 0, none, some "AttributeError"⟩ := by
    rw [runScript_start_shown s img (some data) narr hguard]
    cases data with
    | jobj f => exact absurd hnotobj (by simp [JVal.isObj])
    | jnull => rfl
    | jbool b => rfl
    | jnum n => rfl
    | jstr t => rfl
    | jarr l => rfl
  rw [he1]
  exact ⟨rfl, rfl, rfl, storeImage_questions s img, storeImage_started s img,
    storeImage_index s img, storeImage_history s img, rfl⟩

/-- Witness for C10: a top-level JSON list reply aborts the handler with the
uncaught AttributeError. -/
theorem spec_c10_witness :
    (runScript initState (some 9) (Click.startTriage (some (JVal.jarr [])))
        (ModelReply.success "x")).uncaught = some "AttributeError" :=
  (spec_c10 initState 9 (ModelReply.success "x") (JVal.jarr []) rfl rfl rfl).1
